import Mathlib

/-!
Shallow embedding of the Research-Summarizer-Tool front-end
(`src/App.tsx`).  The component's React state hooks become the fields of
`AppState`; the two event handlers `processUrls` and `searchArticles`
become state transformers.  All mock data (the source list derived from
the URL lines, the fixed streamed answer fragments) is transcribed
verbatim from the source.  The JavaScript string builtins the handlers
use (`String.prototype.trim`, `String.prototype.split` with a
one-character separator, `Array.prototype.pop`, and falsy `||`) are
embedded as structural recursion over the character list so every
definition evaluates inside the kernel.
-/

/-- JavaScript `String.prototype.trim`: the string with leading and
trailing whitespace removed. -/
def jsTrim (s : String) : String :=
  ⟨((s.data.dropWhile Char.isWhitespace).reverse.dropWhile Char.isWhitespace).reverse⟩

/-- Splitting a character list at every occurrence of `sep`; the result
is always non-empty and contains one (possibly empty) group per gap, as
JavaScript `split` does. -/
def splitChar (sep : Char) : List Char → List (List Char)
  | [] => [[]]
  | c :: rest =>
    match splitChar sep rest with
    | [] => [[]]
    | g :: gs => if c = sep then [] :: g :: gs else (c :: g) :: gs

/-- JavaScript `s.split(sep)` for a one-character separator: `"".split`
is `[""]`, a trailing separator yields a trailing empty string. -/
def jsSplit (s : String) (sep : Char) : List String :=
  (splitChar sep s.data).map String.mk

/-- JavaScript `Array.prototype.pop()` applied to a split result: the
last element when the array is non-empty, `undefined` (`none`)
otherwise. -/
def jsPop (xs : List String) : Option String :=
  xs.getLast?

/-- JavaScript `x || d` for `x : string | undefined`: yields `d` when
`x` is `undefined` or the empty string (both falsy), `x` otherwise. -/
def jsOrElse (x : Option String) (d : String) : String :=
  match x with
  | none => d
  | some s => if s = "" then d else s

/-- `interface Source { url: string; title: string }` from
`src/App.tsx`. -/
structure Source where
  url : String
  title : String
deriving Repr, DecidableEq

/-- The React component state of `App` (the `useState` hooks, in source
order): `urls`, `query`, `isProcessing`, `isSearching`, `processedData`,
`answer`, `sources`, `error`. -/
structure AppState where
  urls : String
  query : String
  isProcessing : Bool
  isSearching : Bool
  processedData : Bool
  answer : String
  sources : List Source
  error : Option String
deriving Repr, DecidableEq

/-- The initial component state: every string hook starts `''`, every
boolean `false`, `sources` `[]`, `error` `null`. -/
def initState : AppState :=
  { urls := ""
    query := ""
    isProcessing := false
    isSearching := false
    processedData := false
    answer := ""
    sources := []
    error := none }

/-- `url.split('/').pop() || 'Article'` — the mock title computed for
each URL line in `processUrls` (src/App.tsx lines 38–41). -/
def mkTitle (url : String) : String :=
  jsOrElse (jsPop (jsSplit url '/')) "Article"

/-- The last `'/'`-separated segment of a URL (empty when the URL ends
in `'/'`). -/
def lastSegment (url : String) : String :=
  ((jsSplit url '/').getLast?).getD ""

/-- `urls.split('\n').filter(url => url.trim())` — the non-blank lines
of the textarea content (src/App.tsx line 35). -/
def urlList (urls : String) : List String :=
  (jsSplit urls '\n').filter (fun url => jsTrim url ≠ "")

/-- `urlList.map(url => ({ url, title: url.split('/').pop() || 'Article' }))`
— the mock sources built from the URL lines (src/App.tsx lines 38–41). -/
def mockSources (urls : String) : List Source :=
  (urlList urls).map (fun url => { url := url, title := mkTitle url })

/-- The `processUrls` handler (src/App.tsx lines 21–51).  An all-blank
textarea is rejected with an error message and nothing else changes;
otherwise the mock sources replace the previous ones, `processedData`
is set, the error is cleared, and the `finally` block clears
`isProcessing`. -/
def processUrls (st : AppState) : AppState :=
  if jsTrim st.urls = "" then
    { st with error := some "Please enter at least one URL" }
  else
    { st with
        isProcessing := false
        sources := mockSources st.urls
        processedData := true
        error := none }

/-- The ten hard-coded answer fragments of `searchArticles`
(src/App.tsx lines 72–83), in source order. -/
def mockAnswers : List String :=
  [ "Based on the articles you've provided, "
  , "I can see that the topic you're asking about "
  , "is discussed in several sources. "
  , "The main points from the articles suggest that "
  , "this is an important development in the field. "
  , "According to the sources, there are multiple perspectives on this issue. "
  , "Some experts believe it will have significant impact, "
  , "while others are more cautious about the implications. "
  , "The data from these articles indicates a growing trend "
  , "that merits further investigation and analysis." ]

/-- The streaming loop of `searchArticles` (src/App.tsx lines 86–89):
`for (const part of mockAnswers) setAnswer(prev => prev + part)` —
each fragment is appended to the accumulated answer in sequence. -/
def streamLoop (parts : List String) (acc : String) : String :=
  match parts with
  | [] => acc
  | p :: rest => streamLoop rest (acc ++ p)

/-- The `searchArticles` handler (src/App.tsx lines 54–95).  A blank
question, then a missing processed batch, are rejected with their error
messages; otherwise the answer is reset to `''` and rebuilt by appending
each mock fragment in order, the error is cleared, and the `finally`
block clears `isSearching`. -/
def searchArticles (st : AppState) : AppState :=
  if jsTrim st.query = "" then
    { st with error := some "Please enter a question" }
  else if st.processedData = false then
    { st with error := some "Please process URLs first" }
  else
    { st with
        isSearching := false
        answer := streamLoop mockAnswers ""
        error := none }

/-- The sources block rendered alongside the answer
(src/App.tsx lines 183–196): the current `sources` state, shown whenever
it is non-empty. -/
def displayedSources (st : AppState) : List Source :=
  if st.sources ≠ [] then st.sources else []

/-- A state that has successfully processed one URL and holds a
non-blank question: the Ready state. -/
def readyState : AppState :=
  { initState with
      urls := "https://a.com/x"
      query := "what happened"
      processedData := true
      sources := mockSources "https://a.com/x" }

/-- A second Ready state with a different URL batch and a different
question. -/
def readyState2 : AppState :=
  { initState with
      urls := "https://b.org/news/article2"
      query := "another question"
      processedData := true
      sources := mockSources "https://b.org/news/article2" }

/-- A textarea whose every line is blank or whitespace-only. -/
def blankState : AppState :=
  { initState with urls := "  \n\t \n" }

/-- A state with a non-blank question but no processed batch
(`processedData` still `false`), and a leftover previous answer. -/
def notReadyState : AppState :=
  { initState with query := "what happened", answer := "old answer" }

/-- A state about to submit a fresh one-URL batch. -/
def freshBatchState : AppState :=
  { initState with urls := "https://a.com/x" }

/-- A leftover sources list from an earlier batch. -/
def priorSources : List Source :=
  [{ url := "https://old.org/z", title := "z" }]

/-- A textarea holding the same URL on two lines. -/
def dupState : AppState :=
  { initState with urls := "https://a.com/x\nhttps://a.com/x" }

/-- A full run: process the batch `https://a.com/x`, then ask a
question. -/
def runA : AppState :=
  searchArticles (processUrls { initState with urls := "https://a.com/x", query := "what happened" })

/-- A full run over a different batch with the same question. -/
def runB : AppState :=
  searchArticles (processUrls { initState with urls := "https://b.org/news/article2", query := "what happened" })

theorem streamLoop_eq_foldl (parts : List String) (acc : String) :
    streamLoop parts acc = parts.foldl (· ++ ·) acc := by
  induction parts generalizing acc with
  | nil => rfl
  | cons p rest ih => rw [streamLoop, List.foldl, ih]

theorem streamLoop_eq_join (parts : List String) :
    streamLoop parts "" = String.join parts := by
  rw [streamLoop_eq_foldl]
  rfl

theorem streamLoop_take_succ (parts : List String) (k : Fin parts.length) :
    streamLoop (parts.take (k.val + 1)) "" = streamLoop (parts.take k.val) "" ++ parts.get k := by
  rw [streamLoop_eq_foldl, streamLoop_eq_foldl, List.take_succ, List.foldl_append]
  have h : parts[k.val]? = some (parts.get k) := by
    rw [List.getElem?_eq_getElem k.isLt]
    rfl
  rw [h]
  rfl

theorem splitChar_cons_eq (sep a : Char) (rest g : List Char) (gs : List (List Char))
    (h : splitChar sep rest = g :: gs) :
    splitChar sep (a :: rest) = if a = sep then [] :: g :: gs else (a :: g) :: gs := by
  rw [splitChar, h]

theorem splitChar_cons_nil (sep a : Char) (rest : List Char)
    (h : splitChar sep rest = []) :
    splitChar sep (a :: rest) = [[]] := by
  rw [splitChar, h]

theorem splitChar_ne_nil (sep : Char) (cs : List Char) : splitChar sep cs ≠ [] := by
  cases cs with
  | nil => simp [splitChar]
  | cons c rest =>
    cases hr : splitChar sep rest with
    | nil => rw [splitChar_cons_nil sep c rest hr]; simp
    | cons g gs =>
      rw [splitChar_cons_eq sep c rest g gs hr]
      split <;> simp

theorem jsTrim_eq_empty_iff (s : String) :
    jsTrim s = "" ↔ ∀ c ∈ s.data, c.isWhitespace = true := by
  unfold jsTrim
  constructor
  · intro h c hc
    have hdata :
        (((s.data.dropWhile Char.isWhitespace).reverse.dropWhile Char.isWhitespace).reverse) = [] := by
      have := congrArg String.data h
      simpa using this
    have h2 : (s.data.dropWhile Char.isWhitespace).reverse.dropWhile Char.isWhitespace = [] := by
      simpa using congrArg List.reverse hdata
    have h3 : ∀ c ∈ (s.data.dropWhile Char.isWhitespace).reverse, c.isWhitespace = true :=
      List.dropWhile_eq_nil_iff.mp h2
    have h4 : ∀ c ∈ s.data.dropWhile Char.isWhitespace, c.isWhitespace = true := by
      intro c hc
      exact h3 c (List.mem_reverse.mpr hc)
    rcases (List.mem_append.mp
      (by rw [List.takeWhile_append_dropWhile Char.isWhitespace s.data]; exact hc)) with h5 | h5
    · exact List.mem_takeWhile_imp h5
    · exact h4 c h5
  · intro h
    have h1 : s.data.dropWhile Char.isWhitespace = [] :=
      List.dropWhile_eq_nil_iff.mpr h
    rw [h1]
    rfl

theorem splitChar_all_ws (sep : Char) (hsep : sep.isWhitespace = true) :
    ∀ (cs : List Char), (∀ g ∈ splitChar sep cs, ∀ c ∈ g, c.isWhitespace = true) →
      ∀ c ∈ cs, c.isWhitespace = true := by
  intro cs
  induction cs with
  | nil => intro _ c hc; simp at hc
  | cons a rest ih =>
    intro H c hc
    cases hr : splitChar sep rest with
    | nil => exact absurd hr (splitChar_ne_nil sep rest)
    | cons g gs =>
      rw [splitChar_cons_eq sep a rest g gs hr] at H
      by_cases ha : a = sep
      · rw [if_pos ha] at H
        have Hrest : ∀ g' ∈ splitChar sep rest, ∀ c ∈ g', c.isWhitespace = true := by
          intro g' hg' c' hc'
          exact H g' (by rw [hr] at hg'; exact List.mem_cons_of_mem _ hg') c' hc'
        rcases List.mem_cons.mp hc with h | h
        · rw [h, ha]; exact hsep
        · exact ih Hrest c h
      · rw [if_neg ha] at H
        have Hrest : ∀ g' ∈ splitChar sep rest, ∀ c ∈ g', c.isWhitespace = true := by
          intro g' hg' c' hc'
          rw [hr] at hg'
          rcases List.mem_cons.mp hg' with h | h
          · exact H (a :: g) (List.mem_cons_self _ _) c'
              (by rw [h] at hc'; exact List.mem_cons_of_mem _ hc')
          · exact H g' (List.mem_cons_of_mem _ h) c' hc'
        rcases List.mem_cons.mp hc with h | h
        · exact H (a :: g) (List.mem_cons_self _ _) c (by rw [h]; exact List.mem_cons_self _ _)
        · exact ih Hrest c h

theorem jsTrim_urls_empty (urls : String)
    (h : ∀ line ∈ jsSplit urls '\n', jsTrim line = "") : jsTrim urls = "" := by
  apply (jsTrim_eq_empty_iff urls).mpr
  apply splitChar_all_ws '\n' (by decide)
  intro g hg c hc
  have hmk : jsTrim (String.mk g) = "" := h (String.mk g) (List.mem_map_of_mem String.mk hg)
  exact (jsTrim_eq_empty_iff (String.mk g)).mp hmk c hc

/-- C1: in the Ready state with a non-blank question, `searchArticles`
builds the answer by appending the fragments one at a time in sequence
order (each step extends the previous accumulation by exactly the next
fragment), and the final answer string is the concatenation of all the
fragments in that order — none lost, none reordered. -/
theorem searchArticles_answer_concat (st : AppState)
    (hq : jsTrim st.query ≠ "") (hp : st.processedData = true) :
    (searchArticles st).answer = String.join mockAnswers ∧
    ∀ (k : Fin mockAnswers.length),
      streamLoop (mockAnswers.take (k.val + 1)) "" =
        streamLoop (mockAnswers.take k.val) "" ++ mockAnswers.get k := by
  constructor
  · simp [searchArticles, hq, hp, streamLoop_eq_join]
  · intro k
    exact streamLoop_take_succ mockAnswers k

/-- C1 witness: a concrete Ready run whose answer is the concatenation
of the ten mock fragments. -/
theorem searchArticles_answer_concat_witness :
    jsTrim readyState.query ≠ "" ∧ readyState.processedData = true ∧
    (searchArticles readyState).answer = String.join mockAnswers :=
  ⟨by decide, rfl, (searchArticles_answer_concat readyState (by decide) rfl).1⟩

set_option maxRecDepth 10000 in
/-- C2 counterexample: the claim says a URL contributes a source entry
only if its content was used to ground the answer.  In the code the
answer is a fixed string — two runs over disjoint URL batches produce
the identical answer — yet every submitted URL appears among the
displayed sources, so a URL whose content contributed nothing still
contributes a source entry. -/
theorem sources_not_citation_filtered_counterexample :
    runA.answer = runB.answer ∧
    displayedSources runA = [{ url := "https://a.com/x", title := "x" }] ∧
    displayedSources runA ≠ displayedSources runB := by
  refine ⟨by decide, by decide, by decide⟩

/-- C2 amended: the displayed sources after answering are exactly the
mock sources computed from the submitted batch at processing time — one
entry per non-blank URL line — independent of the answer, which is the
fixed fragment concatenation; sources are not filtered by citation or
use (the mock answer uses no chunk of any URL). -/
theorem sources_from_batch_not_citation (st : AppState)
    (hu : jsTrim st.urls ≠ "") (hq : jsTrim st.query ≠ "") :
    (searchArticles (processUrls st)).sources = mockSources st.urls ∧
    (searchArticles (processUrls st)).answer = String.join mockAnswers := by
  have h1 : processUrls st =
      { st with
          isProcessing := false
          sources := mockSources st.urls
          processedData := true
          error := none } := by
    simp [processUrls, hu]
  rw [h1]
  simp [searchArticles, hq, streamLoop_eq_join]

/-- C2 amended witness: the concrete run over `https://a.com/x`. -/
theorem sources_from_batch_not_citation_witness :
    jsTrim "https://a.com/x" ≠ "" ∧ jsTrim "what happened" ≠ "" ∧
    runA.sources = mockSources "https://a.com/x" ∧
    runA.answer = String.join mockAnswers :=
  ⟨by decide, by decide,
   (sources_from_batch_not_citation
     { initState with urls := "https://a.com/x", query := "what happened" }
     (by decide) (by decide)).1,
   (sources_from_batch_not_citation
     { initState with urls := "https://a.com/x", query := "what happened" }
     (by decide) (by decide)).2⟩

/-- C3 counterexample: submitting the same URL on two lines yields two
source entries with the same url — the sources collection is not
deduplicated by url. -/
theorem sources_not_deduped_counterexample :
    (processUrls dupState).sources.map Source.url =
      ["https://a.com/x", "https://a.com/x"] ∧
    ¬ ((processUrls dupState).sources.map Source.url).Nodup := by
  constructor
  · decide
  · decide

/-- C3 amended: the resulting sources collection holds exactly one
entry per non-blank line of the input, in input order, with no
deduplication — the same URL on multiple lines yields multiple entries
with the same url. -/
theorem sources_one_per_nonblank_line (st : AppState) (hu : jsTrim st.urls ≠ "") :
    (processUrls st).sources.map Source.url = urlList st.urls := by
  simp [processUrls, hu, mockSources, List.map_map, Function.comp_def]

/-- C3 amended witness: the duplicated-line batch yields one entry per
line. -/
theorem sources_one_per_nonblank_line_witness :
    jsTrim dupState.urls ≠ "" ∧
    (processUrls dupState).sources.map Source.url = urlList dupState.urls :=
  ⟨by decide, sources_one_per_nonblank_line dupState (by decide)⟩

/-- C4: submitting an input whose every line is empty or
whitespace-only is rejected with the invalid-input error message, and
the rejection changes nothing else: `processedData` keeps its value (so
stays `false` if it was `false`) and the existing sources are
untouched. -/
theorem blank_input_rejected (st : AppState)
    (h : ∀ line ∈ jsSplit st.urls '\n', jsTrim line = "") :
    (processUrls st).error = some "Please enter at least one URL" ∧
    (processUrls st).processedData = st.processedData ∧
    (processUrls st).sources = st.sources := by
  have hz : jsTrim st.urls = "" := jsTrim_urls_empty st.urls h
  simp [processUrls, hz]

/-- C4 witness: a concrete all-whitespace textarea is rejected and the
state stays at its initial values. -/
theorem blank_input_rejected_witness :
    (∀ line ∈ jsSplit blankState.urls '\n', jsTrim line = "") ∧
    (processUrls blankState).error = some "Please enter at least one URL" ∧
    (processUrls blankState).processedData = false ∧
    (processUrls blankState).sources = [] :=
  ⟨by decide,
   (blank_input_rejected blankState (by decide)).1,
   (blank_input_rejected blankState (by decide)).2.1,
   (blank_input_rejected blankState (by decide)).2.2⟩

/-- C5: asking a non-blank question with no processed batch
(`processedData = false`) fails with the not-ready error message and
leaves the answer untouched; with `processedData = true` the question
is not rejected on readiness grounds (no error is raised at all). -/
theorem ask_requires_ready (st : AppState) (hq : jsTrim st.query ≠ "") :
    (st.processedData = false →
      (searchArticles st).error = some "Please process URLs first" ∧
      (searchArticles st).answer = st.answer) ∧
    (st.processedData = true → (searchArticles st).error = none) := by
  constructor
  · intro hp
    simp [searchArticles, hq, hp]
  · intro hp
    simp [searchArticles, hq, hp]

/-- C5 witness: the concrete not-ready state is rejected and keeps its
old answer; the concrete Ready state raises no error. -/
theorem ask_requires_ready_witness :
    jsTrim notReadyState.query ≠ "" ∧ notReadyState.processedData = false ∧
    (searchArticles notReadyState).error = some "Please process URLs first" ∧
    (searchArticles notReadyState).answer = "old answer" ∧
    (searchArticles readyState).error = none :=
  ⟨by decide, rfl,
   ((ask_requires_ready notReadyState (by decide)).1 rfl).1,
   ((ask_requires_ready notReadyState (by decide)).1 rfl).2,
   (ask_requires_ready readyState (by decide)).2 rfl⟩

/-- C6: a successful submission of a new non-empty batch makes the
sources exactly the ones derived from the new batch, whatever sources a
prior batch had left in the state — replacement, never a merge. -/
theorem new_batch_replaces (st : AppState) (prior : List Source)
    (hu : jsTrim st.urls ≠ "") :
    (processUrls { st with sources := prior }).sources = mockSources st.urls := by
  simp [processUrls, hu]

/-- C6 witness: processing a fresh one-URL batch over leftover sources
from an older batch yields exactly the new batch's source entry. -/
theorem new_batch_replaces_witness :
    jsTrim freshBatchState.urls ≠ "" ∧
    (processUrls { freshBatchState with sources := priorSources }).sources =
      [{ url := "https://a.com/x", title := "x" }] :=
  ⟨by decide, by
    have h := new_batch_replaces freshBatchState priorSources (by decide)
    exact h.trans (by decide)⟩

/-- C7: the mock title of a URL is its last `'/'`-separated segment,
with the fallback `'Article'` taken exactly when that last segment is
empty (for instance when the URL ends in `'/'`). -/
theorem mkTitle_eq_lastSegment (url : String) :
    mkTitle url = if lastSegment url = "" then "Article" else lastSegment url := by
  unfold mkTitle lastSegment jsOrElse jsPop
  cases h : (jsSplit url '/').getLast? with
  | none => simp
  | some s => simp

/-- C9: the processed flag is monotone — from any state where
`processedData` is `true`, neither `processUrls` (on any textarea
content, rejected or successful) nor `searchArticles` (on any question,
rejected or successful) ever resets it to `false`. -/
theorem processedData_monotone (st : AppState) (h : st.processedData = true) :
    (processUrls st).processedData = true ∧ (searchArticles st).processedData = true := by
  constructor
  · unfold processUrls
    split <;> simp [h]
  · unfold searchArticles
    split
    · simp [h]
    · split <;> simp [h]

/-- C9 witness: the flag stays `true` through both operations on the
concrete Ready state. -/
theorem processedData_monotone_witness :
    readyState.processedData = true ∧
    (processUrls readyState).processedData = true ∧
    (searchArticles readyState).processedData = true :=
  ⟨rfl, (processedData_monotone readyState rfl).1, (processedData_monotone readyState rfl).2⟩

/-- C10: the final answer is independent of both the question text and
the submitted URL batch — any two Ready-state runs with non-blank
questions produce identical answer strings, namely the fixed mock
concatenation. -/
theorem answer_content_independent (st₁ st₂ : AppState)
    (h1q : jsTrim st₁.query ≠ "") (h1p : st₁.processedData = true)
    (h2q : jsTrim st₂.query ≠ "") (h2p : st₂.processedData = true) :
    (searchArticles st₁).answer = (searchArticles st₂).answer ∧
    (searchArticles st₁).answer = String.join mockAnswers := by
  constructor
  · simp [searchArticles, h1q, h1p, h2q, h2p]
  · simp [searchArticles, h1q, h1p, streamLoop_eq_join]

/-- C10 witness: two concrete Ready states differing in both the URL
batch and the question produce the same answer. -/
theorem answer_content_independent_witness :
    jsTrim readyState.query ≠ "" ∧ jsTrim readyState2.query ≠ "" ∧
    readyState ≠ readyState2 ∧
    (searchArticles readyState).answer = (searchArticles readyState2).answer :=
  ⟨by decide, by decide, by decide,
   (answer_content_independent readyState readyState2 (by decide) rfl (by decide) rfl).1⟩
